import Mathlib

/-!
Verification of the aging-priority print-queue scheduler.

The development shallowly embeds the Python sources:
  priority_job.py        -- the job entity and its derived priority/expiry
  priority_queue.py      -- the lazily resynchronized priority index
  priority_manager.py    -- the scheduler facade over the index
  integration_interface.py -- the integration wrapper (callback slots)
  print_queue_manager.py -- the deterministic tick-driven variant

Timestamps are modelled as whole seconds (Nat); priorities and page counts
are Int, as Python ints.  The binary heap of priority_queue.py is modelled
as an order-maintained list: heappush becomes ordered insertion.  Every
observable use of the heap in the source (index 0 as the minimum, sorting
the whole heap, emptiness, membership) agrees between the two
representations.  Mutation of shared job objects is modelled by removing
records from the state and returning updated copies, exactly mirroring the
points where the source reassigns job.status.
-/

inductive JobStatus where
  | pending
  | processing
  | completed
  | expired
deriving DecidableEq, Repr

/-- Embeds the dataclass PriorityJob of priority_job.py.  created_at is
fixed at construction time (datetime.now() in __post_init__ is passed in as
the submission instant). -/
structure PriorityJob where
  job_id : String
  user_id : String
  document_name : String
  pages : Int
  initial_priority : Int
  created_at : Nat
  status : JobStatus
  aging_interval : Nat
  max_wait_time : Nat
deriving DecidableEq, Repr

/-- Embeds PriorityJob.current_priority: initial priority outside Pending,
otherwise initial priority plus one increment per full aging interval
elapsed, capped at 5. -/
def current_priority (j : PriorityJob) (now : Nat) : Int :=
  if j.status ≠ JobStatus.pending then j.initial_priority
  else min 5 (j.initial_priority + (((now - j.created_at) / j.aging_interval : Nat) : Int))

/-- Embeds PriorityJob.is_expired: wait time strictly above max_wait_time. -/
def is_expired (j : PriorityJob) (now : Nat) : Bool :=
  decide (j.max_wait_time < now - j.created_at)

/-- Embeds PriorityJob.wait_time_seconds. -/
def wait_time_seconds (j : PriorityJob) (now : Nat) : Nat :=
  now - j.created_at

/-- Heap keys of priority_queue.py: (-current_priority, created_at timestamp,
counter). -/
abbrev HeapKey : Type := Int × Nat × Nat

abbrev HeapEntry : Type := HeapKey × PriorityJob

/-- Lexicographic comparison of heap keys, as Python compares the tuples. -/
def lex3LE (a b : HeapKey) : Prop :=
  a.1 < b.1 ∨ (a.1 = b.1 ∧ (a.2.1 < b.2.1 ∨ (a.2.1 = b.2.1 ∧ a.2.2 ≤ b.2.2)))

instance : DecidableRel lex3LE := fun a b => by
  unfold lex3LE
  exact inferInstance

/-- Heap entries are ordered by their keys (the counter component keeps keys
distinct in reachable states, so Python never compares the job objects). -/
def entryLE (a b : HeapEntry) : Prop := lex3LE a.1 b.1

instance : DecidableRel entryLE := fun a b => by
  unfold entryLE
  exact inferInstance

instance : IsTotal HeapEntry entryLE :=
  ⟨by
    intro a b
    unfold entryLE lex3LE
    omega⟩

instance : IsTrans HeapEntry entryLE :=
  ⟨by
    intro a b c hab hbc
    unfold entryLE lex3LE at *
    omega⟩

/-- Embeds the snapshot dictionaries built by get_queue_snapshot. -/
structure SnapshotView where
  job_id : String
  user_id : String
  document_name : String
  initial_priority : Int
  current_priority : Int
  wait_time : Nat
  pages : Int
  created_at : Nat
deriving DecidableEq, Repr

/-- Embeds the state of class PriorityQueue: the heap list, the insertion
ordered job_id lookup (a Python dict, one record per id), and the
tie-breaking counter. -/
structure PriorityQueue where
  heap : List HeapEntry
  lookup : List PriorityJob
  counter : Nat
deriving DecidableEq, Repr

/-- Embeds heapq.heappush on the order-maintained heap model. -/
def heapPush (e : HeapEntry) (h : List HeapEntry) : List HeapEntry :=
  List.orderedInsert entryLE e h

namespace PriorityQueue

/-- Embeds PriorityQueue._rebuild_heap: re-push every still-Pending job of
the lookup with a freshly computed key and a fresh counter. -/
def rebuild_heap (now : Nat) (s : PriorityQueue) : PriorityQueue :=
  let active := s.lookup.filter (fun j => j.status == JobStatus.pending)
  let r := active.foldl
    (fun acc j =>
      (heapPush ((-(current_priority j now), j.created_at, acc.2), j) acc.1, acc.2 + 1))
    (([] : List HeapEntry), s.counter)
  { heap := r.1, lookup := s.lookup, counter := r.2 }

/-- Embeds the per-job test of PriorityQueue._cleanup_expired_jobs. -/
def expiredPendingB (now : Nat) (j : PriorityJob) : Bool :=
  is_expired j now && (j.status == JobStatus.pending)

/-- Embeds PriorityQueue._cleanup_expired_jobs: drop every Pending job past
its deadline from the lookup (the source also flips their status to Expired
before discarding them) and rebuild the heap iff anything was dropped. -/
def cleanup_expired_jobs (now : Nat) (s : PriorityQueue) : PriorityQueue :=
  if s.lookup.any (expiredPendingB now) then
    rebuild_heap now { s with lookup := s.lookup.filter (fun j => !(expiredPendingB now j)) }
  else s

/-- Embeds PriorityQueue._rebalance_priorities: rebuild whenever the heap
still holds any Pending job. -/
def rebalance_priorities (now : Nat) (s : PriorityQueue) : PriorityQueue :=
  if s.heap.any (fun e => e.2.status == JobStatus.pending) then rebuild_heap now s
  else s

/-- Embeds PriorityQueue.add_job. -/
def add_job (now : Nat) (s : PriorityQueue) (job : PriorityJob) : Bool × PriorityQueue :=
  if s.lookup.any (fun j => j.job_id == job.job_id) then (false, s)
  else
    (true,
      { heap := heapPush ((-(current_priority job now), job.created_at, s.counter), job) s.heap,
        lookup := s.lookup ++ [job],
        counter := s.counter + 1 })

/-- Embeds PriorityQueue.get_next_job: cleanup, rebalance, then peek the
minimum-key entry. -/
def get_next_job (now : Nat) (s : PriorityQueue) : Option PriorityJob × PriorityQueue :=
  let s1 := rebalance_priorities now (cleanup_expired_jobs now s)
  match s1.heap with
  | [] => (none, s1)
  | e :: _ => ((if e.2.status == JobStatus.pending then some e.2 else none), s1)

/-- Embeds PriorityQueue.remove_job: pop the record from the lookup, mark it
Completed, rebuild the heap. -/
def remove_job (now : Nat) (s : PriorityQueue) (job_id : String) :
    Option PriorityJob × PriorityQueue :=
  match s.lookup.find? (fun j => j.job_id == job_id) with
  | none => (none, s)
  | some job =>
      (some { job with status := JobStatus.completed },
        rebuild_heap now { s with lookup := s.lookup.eraseP (fun j => j.job_id == job_id) })

/-- Embeds the view record built per job inside get_queue_snapshot. -/
def viewOf (now : Nat) (j : PriorityJob) : SnapshotView :=
  { job_id := j.job_id
    user_id := j.user_id
    document_name := j.document_name
    initial_priority := j.initial_priority
    current_priority := current_priority j now
    wait_time := wait_time_seconds j now
    pages := j.pages
    created_at := j.created_at }

/-- Embeds PriorityQueue.get_queue_snapshot: cleanup, rebalance, sort the
heap, and list a view for every Pending entry. -/
def get_queue_snapshot (now : Nat) (s : PriorityQueue) :
    List SnapshotView × PriorityQueue :=
  let s1 := rebalance_priorities now (cleanup_expired_jobs now s)
  (((List.insertionSort entryLE s1.heap).filter
      (fun e => e.2.status == JobStatus.pending)).map (fun e => viewOf now e.2), s1)

/-- Embeds PriorityQueue.size: the count of Pending jobs in the lookup (no
expiry sweep happens here). -/
def size (s : PriorityQueue) : Nat :=
  (s.lookup.filter (fun j => j.status == JobStatus.pending)).length

end PriorityQueue

/-- Embeds the state of class PriorityManager (the lock and the background
thread carry no scheduling state). -/
structure PriorityManager where
  queue : PriorityQueue
  default_aging_interval : Nat
  default_max_wait : Nat
deriving DecidableEq, Repr

/-- Embeds Python's `x or d` for an optional integer argument: None and 0
are both falsy, so both fall back to the default. -/
def pyOr (x : Option Nat) (d : Nat) : Nat :=
  match x with
  | none => d
  | some v => if v = 0 then d else v

namespace PriorityManager

/-- Embeds PriorityManager.submit_job: resolve the optional aging/expiry
configuration through `or`, construct the job, delegate to add_job.  No
input validation occurs. -/
def submit_job (now : Nat) (m : PriorityManager) (job_id user_id document_name : String)
    (pages : Int) (initial_priority : Int)
    (aging_interval max_wait_time : Option Nat) : Bool × PriorityManager :=
  let a := pyOr aging_interval m.default_aging_interval
  let w := pyOr max_wait_time m.default_max_wait
  let job : PriorityJob :=
    { job_id := job_id
      user_id := user_id
      document_name := document_name
      pages := pages
      initial_priority := initial_priority
      created_at := now
      status := JobStatus.pending
      aging_interval := a
      max_wait_time := w }
  let r := PriorityQueue.add_job now m.queue job
  (r.1, { m with queue := r.2 })

/-- Embeds PriorityManager.complete_job. -/
def complete_job (now : Nat) (m : PriorityManager) (job_id : String) :
    Bool × PriorityManager :=
  let r := PriorityQueue.remove_job now m.queue job_id
  (r.1.isSome, { m with queue := r.2 })

end PriorityManager

/-- Embeds the dictionary returned by PriorityManager.get_queue_status. -/
structure QueueStatus where
  total_jobs : Nat
  avg_wait_time : ℚ
  priority_distribution : List (Int × Nat)
  jobs : List SnapshotView
deriving DecidableEq, Repr

/-- Embeds `priority_dist.get(p, 0) + 1` on a Python dict kept as a
first-occurrence-ordered association list. -/
def distAdd (d : List (Int × Nat)) (p : Int) : List (Int × Nat) :=
  if d.any (fun q => q.1 == p) then
    d.map (fun q => if q.1 == p then (q.1, q.2 + 1) else q)
  else d ++ [(p, 1)]

/-- Embeds PriorityManager.get_queue_status: take a snapshot, then compute
totals, the mean wait and the priority histogram. -/
def PriorityManager.get_queue_status (now : Nat) (m : PriorityManager) :
    QueueStatus × PriorityManager :=
  let r := PriorityQueue.get_queue_snapshot now m.queue
  let snapshot := r.1
  let m' := { m with queue := r.2 }
  if snapshot.length = 0 then
    ({ total_jobs := 0, avg_wait_time := 0, priority_distribution := [], jobs := [] }, m')
  else
    ({ total_jobs := snapshot.length
       avg_wait_time :=
         ((snapshot.map (fun v => (v.wait_time : ℚ))).sum) / (snapshot.length : ℚ)
       priority_distribution :=
         snapshot.foldl (fun d v => distAdd d v.current_priority) []
       jobs := snapshot }, m')

/-- Embeds the state of class PrintQueueIntegration.  Callbacks are
modelled symbolically by identifiers; an operation additionally returns the
list of (callback, argument) invocations it performs, so that the
synchronous callback calls of the source are observable. -/
structure PrintQueueIntegration where
  priority_manager : PriorityManager
  expiry_notification_callback : Option Nat
  status_change_callback : Option Nat
deriving DecidableEq, Repr

namespace PrintQueueIntegration

/-- Embeds PrintQueueIntegration.register_status_callback: a single slot,
overwritten by each registration. -/
def register_status_callback (st : PrintQueueIntegration) (cb : Nat) :
    PrintQueueIntegration :=
  { st with status_change_callback := some cb }

/-- Embeds PrintQueueIntegration.handle_tick_event: perform a status read
and, if a status callback is registered, invoke it with the result. -/
def handle_tick_event (now : Nat) (st : PrintQueueIntegration) :
    QueueStatus × List (Nat × QueueStatus) × PrintQueueIntegration :=
  let r := PriorityManager.get_queue_status now st.priority_manager
  let calls := match st.status_change_callback with
    | some cb => [(cb, r.1)]
    | none => []
  (r.1, calls, { st with priority_manager := r.2 })

/-- Embeds PrintQueueIntegration.get_print_order_report: a status read that
returns the ordered job views; the source invokes no callback here. -/
def get_print_order_report (now : Nat) (st : PrintQueueIntegration) :
    List SnapshotView × List (Nat × QueueStatus) × PrintQueueIntegration :=
  let r := PriorityManager.get_queue_status now st.priority_manager
  (r.1.jobs, [], { st with priority_manager := r.2 })

end PrintQueueIntegration

/-- Embeds the per-job dictionaries of print_queue_manager.py. -/
structure TickJob where
  user_id : String
  job_id : String
  priority : Int
  waiting_time : Nat
  last_aged : Nat
deriving DecidableEq, Repr

/-- Lexicographic comparison of the tick variant's sort keys
(-priority, waiting_time). -/
def lex2LE (a b : Int × Nat) : Prop :=
  a.1 < b.1 ∨ (a.1 = b.1 ∧ a.2 ≤ b.2)

instance : DecidableRel lex2LE := fun a b => by
  unfold lex2LE
  exact inferInstance

/-- Ordering used by PrintQueueManager._resort. -/
def tickLE (a b : TickJob) : Prop :=
  lex2LE (-a.priority, a.waiting_time) (-b.priority, b.waiting_time)

instance : DecidableRel tickLE := fun a b => by
  unfold tickLE lex2LE
  exact inferInstance

instance : IsTotal TickJob tickLE :=
  ⟨by
    intro a b
    unfold tickLE lex2LE
    omega⟩

instance : IsTrans TickJob tickLE :=
  ⟨by
    intro a b c hab hbc
    unfold tickLE lex2LE at *
    omega⟩

/-- Embeds the state of class PrintQueueManager, the tick-driven variant. -/
structure PrintQueueManager where
  queue : List TickJob
  current_time : Nat
  aging_interval : Nat
  expiry_time : Nat
  capacity : Nat
deriving DecidableEq, Repr

namespace PrintQueueManager

/-- Embeds PrintQueueManager._resort: a stable sort on
(-priority, waiting_time). -/
def resort (s : PrintQueueManager) : PrintQueueManager :=
  { s with queue := List.insertionSort tickLE s.queue }

/-- Embeds PrintQueueManager.enqueue_job. -/
def enqueue_job (s : PrintQueueManager) (user_id job_id : String) (priority : Int) :
    Bool × PrintQueueManager :=
  if s.capacity ≤ s.queue.length then (false, s)
  else
    (true, resort { s with queue := s.queue ++
      [{ user_id := user_id, job_id := job_id, priority := priority,
         waiting_time := 0, last_aged := 0 }] })

/-- Embeds PrintQueueManager._apply_priority_aging: a zero interval (falsy)
skips aging; otherwise every job a full interval past its last bump gains
one priority level, uncapped. -/
def apply_priority_aging (s : PrintQueueManager) : PrintQueueManager :=
  if s.aging_interval = 0 then s
  else
    { s with queue := s.queue.map (fun job =>
        if s.aging_interval ≤ job.waiting_time - job.last_aged then
          { job with priority := job.priority + 1, last_aged := job.waiting_time }
        else job) }

/-- Embeds PrintQueueManager._remove_expired_jobs: a zero expiry time
(falsy) disables expiry; otherwise only jobs with waiting_time strictly
below the threshold survive. -/
def remove_expired_jobs (s : PrintQueueManager) : PrintQueueManager :=
  if s.expiry_time = 0 then s
  else { s with queue := s.queue.filter (fun job => job.waiting_time < s.expiry_time) }

/-- Embeds PrintQueueManager.tick: advance time, grow every waiting time,
age, expire, re-sort. -/
def tick (s : PrintQueueManager) : PrintQueueManager :=
  resort (remove_expired_jobs (apply_priority_aging
    { s with
        current_time := s.current_time + 1,
        queue := s.queue.map (fun job => { job with waiting_time := job.waiting_time + 1 }) }))

end PrintQueueManager

/-! Helper lemmas about the embedded operations. -/

lemma mem_heapPush {x e : HeapEntry} {h : List HeapEntry} :
    x ∈ heapPush e h ↔ x = e ∨ x ∈ h :=
  List.mem_orderedInsert entryLE

lemma length_heapPush (e : HeapEntry) (h : List HeapEntry) :
    (heapPush e h).length = h.length + 1 :=
  List.orderedInsert_length entryLE h e

lemma rebuild_fold_mem (now : Nat) :
    ∀ (l : List PriorityJob) (acc : List HeapEntry × Nat) (e : HeapEntry),
      e ∈ (l.foldl (fun acc j =>
          (heapPush ((-(current_priority j now), j.created_at, acc.2), j) acc.1, acc.2 + 1))
        acc).1 →
      e ∈ acc.1 ∨ (e.2 ∈ l ∧ e.1.1 = -(current_priority e.2 now) ∧ e.1.2.1 = e.2.created_at)
  | [], acc, e, h => Or.inl h
  | j :: t, acc, e, h => by
    rcases rebuild_fold_mem now t _ e h with h1 | h2
    · rcases mem_heapPush.mp h1 with h3 | h4
      · subst h3
        exact Or.inr ⟨List.mem_cons_self j t, rfl, rfl⟩
      · exact Or.inl h4
    · exact Or.inr ⟨List.mem_cons_of_mem j h2.1, h2.2⟩

lemma rebuild_fold_length (now : Nat) :
    ∀ (l : List PriorityJob) (acc : List HeapEntry × Nat),
      (l.foldl (fun acc j =>
          (heapPush ((-(current_priority j now), j.created_at, acc.2), j) acc.1, acc.2 + 1))
        acc).1.length = acc.1.length + l.length
  | [], _ => rfl
  | j :: t, acc => by
    rw [List.foldl_cons, rebuild_fold_length now t]
    simp [length_heapPush]
    omega

lemma rebuild_heap_mem {now : Nat} {s : PriorityQueue} {e : HeapEntry}
    (h : e ∈ (PriorityQueue.rebuild_heap now s).heap) :
    e.2 ∈ s.lookup ∧ e.2.status = JobStatus.pending ∧
      e.1.1 = -(current_priority e.2 now) ∧ e.1.2.1 = e.2.created_at := by
  unfold PriorityQueue.rebuild_heap at h
  rcases rebuild_fold_mem now _ _ _ h with h1 | h2
  · exact absurd h1 (List.not_mem_nil e)
  · have hm := List.mem_filter.mp h2.1
    refine ⟨hm.1, ?_, h2.2⟩
    simpa using hm.2

lemma rebuild_heap_lookup (now : Nat) (s : PriorityQueue) :
    (PriorityQueue.rebuild_heap now s).lookup = s.lookup := rfl

lemma rebuild_heap_length (now : Nat) (s : PriorityQueue) :
    (PriorityQueue.rebuild_heap now s).heap.length =
      (s.lookup.filter (fun j => j.status == JobStatus.pending)).length := by
  unfold PriorityQueue.rebuild_heap
  rw [rebuild_fold_length now]
  simp

lemma cleanup_lookup_mem {now : Nat} {s : PriorityQueue} {j : PriorityJob}
    (h : j ∈ (PriorityQueue.cleanup_expired_jobs now s).lookup) :
    j ∈ s.lookup ∧ PriorityQueue.expiredPendingB now j = false := by
  unfold PriorityQueue.cleanup_expired_jobs at h
  by_cases hc : s.lookup.any (PriorityQueue.expiredPendingB now) = true
  · rw [if_pos hc] at h
    rw [rebuild_heap_lookup] at h
    have hm := List.mem_filter.mp h
    refine ⟨hm.1, ?_⟩
    simpa using hm.2
  · rw [if_neg hc] at h
    refine ⟨h, ?_⟩
    rw [Bool.not_eq_true] at hc
    rw [List.any_eq_false] at hc
    simpa using hc j h

lemma rebalance_heap_pending_mem {now : Nat} {s : PriorityQueue} {e : HeapEntry}
    (he : e ∈ (PriorityQueue.rebalance_priorities now s).heap)
    (hp : e.2.status = JobStatus.pending) :
    e.2 ∈ s.lookup ∧ e.1.1 = -(current_priority e.2 now) ∧ e.1.2.1 = e.2.created_at := by
  unfold PriorityQueue.rebalance_priorities at he
  by_cases hc : s.heap.any (fun e => e.2.status == JobStatus.pending) = true
  · rw [if_pos hc] at he
    have h := rebuild_heap_mem he
    exact ⟨h.1, h.2.2⟩
  · rw [if_neg hc] at he
    rw [Bool.not_eq_true, List.any_eq_false] at hc
    have := hc e he
    simp [hp] at this

lemma rebalance_lookup (now : Nat) (s : PriorityQueue) :
    (PriorityQueue.rebalance_priorities now s).lookup = s.lookup := by
  unfold PriorityQueue.rebalance_priorities
  split
  · rfl
  · rfl

lemma snapshot_mem {now : Nat} {s : PriorityQueue} {v : SnapshotView}
    (hv : v ∈ (PriorityQueue.get_queue_snapshot now s).1) :
    ∃ e, e ∈ (PriorityQueue.rebalance_priorities now
        (PriorityQueue.cleanup_expired_jobs now s)).heap ∧
      e.2.status = JobStatus.pending ∧ v = PriorityQueue.viewOf now e.2 := by
  unfold PriorityQueue.get_queue_snapshot at hv
  obtain ⟨e, he, hve⟩ := List.mem_map.mp hv
  have hf := List.mem_filter.mp he
  have hmem : e ∈ (PriorityQueue.rebalance_priorities now
      (PriorityQueue.cleanup_expired_jobs now s)).heap :=
    (List.perm_insertionSort entryLE _).mem_iff.mp hf.1
  refine ⟨e, hmem, ?_, hve.symm⟩
  simpa using hf.2

lemma eq_of_mem_of_nodup_ids {l : List PriorityJob}
    (h : (l.map (fun j => j.job_id)).Nodup)
    {a b : PriorityJob} (ha : a ∈ l) (hb : b ∈ l) (hid : a.job_id = b.job_id) : a = b :=
  List.inj_on_of_nodup_map h ha hb hid

lemma find?_id_of_nodup {l : List PriorityJob}
    (h : (l.map (fun j => j.job_id)).Nodup)
    {j : PriorityJob} (hj : j ∈ l) :
    l.find? (fun x => x.job_id == j.job_id) = some j := by
  have hs : (l.find? (fun x => x.job_id == j.job_id)).isSome := by
    rw [List.find?_isSome]
    exact ⟨j, hj, by simp⟩
  obtain ⟨x, hx⟩ := Option.isSome_iff_exists.mp hs
  have hxl : x ∈ l := List.mem_of_find?_eq_some hx
  have hpx : x.job_id = j.job_id := by
    have := List.find?_some hx
    simpa using this
  rw [hx, eq_of_mem_of_nodup_ids h hxl hj hpx]

lemma get_queue_status_jobs (now : Nat) (m : PriorityManager) :
    (PriorityManager.get_queue_status now m).1.jobs =
      (PriorityQueue.get_queue_snapshot now m.queue).1 := by
  unfold PriorityManager.get_queue_status
  by_cases hc : (PriorityQueue.get_queue_snapshot now m.queue).1.length = 0
  · rw [if_pos hc]
    exact (List.length_eq_zero.mp hc).symm
  · rw [if_neg hc]

/-- The ordering relation the snapshot claim asserts: strictly higher
effective priority first, ties in favour of the earlier submission. -/
def viewR (v w : SnapshotView) : Prop :=
  w.current_priority < v.current_priority ∨
    (v.current_priority = w.current_priority ∧ v.created_at ≤ w.created_at)

/-! Claim theorems. -/

/-- C1: while a job is Pending its effective priority at time `now` is
min(5, base + floor(elapsed / aging_interval)); outside Pending it equals
the base priority; and for a fixed Pending job it is monotonically
nondecreasing in elapsed time. -/
theorem c1_effective_priority (j k : PriorityJob) (n n' : Nat)
    (hp : j.status = JobStatus.pending) (ha : 0 < j.aging_interval) (hnn : n ≤ n')
    (hk : k.status ≠ JobStatus.pending) :
    current_priority j n =
      min 5 (j.initial_priority + (((n - j.created_at) / j.aging_interval : Nat) : Int)) ∧
    current_priority j n ≤ current_priority j n' ∧
    current_priority k n = k.initial_priority := by
  refine ⟨?_, ?_, ?_⟩
  · simp [current_priority, hp]
  · simp only [current_priority, hp, ne_eq, not_true_eq_false, if_false]
    refine min_le_min le_rfl (add_le_add_left ?_ _)
    exact_mod_cast Nat.div_le_div_right (Nat.sub_le_sub_right hnn j.created_at)
  · simp [current_priority, hk]

def jW1 : PriorityJob :=
  { job_id := "a", user_id := "u", document_name := "d", pages := 2, initial_priority := 1,
    created_at := 0, status := JobStatus.pending, aging_interval := 300, max_wait_time := 3600 }

def kW1 : PriorityJob := { jW1 with status := JobStatus.completed }

theorem c1_effective_priority_witness :
    (jW1.status = JobStatus.pending ∧ 0 < jW1.aging_interval ∧ (650 : Nat) ≤ 1000 ∧
      kW1.status ≠ JobStatus.pending) ∧
    current_priority jW1 650 =
      min 5 (jW1.initial_priority + (((650 - jW1.created_at) / jW1.aging_interval : Nat) : Int)) ∧
    current_priority jW1 650 ≤ current_priority jW1 1000 ∧
    current_priority kW1 650 = kW1.initial_priority :=
  ⟨⟨rfl, by decide, by decide, by decide⟩,
    c1_effective_priority jW1 kW1 650 1000 rfl (by decide) (by decide) (by decide)⟩

/-- C4: submitting a job_id that the lookup already knows returns false and
leaves the manager state (queue, heap, lookup, counter, defaults) exactly
unchanged. -/
theorem c4_duplicate_submit_rejected (now : Nat) (m : PriorityManager)
    (job_id user_id document_name : String) (pages initial_priority : Int)
    (aging_interval max_wait_time : Option Nat)
    (hdup : (m.queue.lookup.any (fun j => j.job_id == job_id)) = true) :
    PriorityManager.submit_job now m job_id user_id document_name pages initial_priority
      aging_interval max_wait_time = (false, m) := by
  unfold PriorityManager.submit_job PriorityQueue.add_job
  simp only [hdup, if_true]

def mW4 : PriorityManager :=
  { queue := { heap := [((-1, 0, 0), jW1)], lookup := [jW1], counter := 1 },
    default_aging_interval := 300, default_max_wait := 3600 }

theorem c4_duplicate_submit_rejected_witness :
    ((mW4.queue.lookup.any (fun j => j.job_id == "a")) = true) ∧
    PriorityManager.submit_job 7 mW4 "a" "u2" "d2" 9 2 none none = (false, mW4) :=
  ⟨by decide, c4_duplicate_submit_rejected 7 mW4 "a" "u2" "d2" 9 2 none none (by decide)⟩

def mW5 : PriorityManager :=
  { queue := { heap := [], lookup := [], counter := 0 },
    default_aging_interval := 300, default_max_wait := 3600 }

/-- C5 counterexample: a submit with a negative page count is not rejected:
on an empty queue it returns true and inserts the job, contradicting the
claim that malformed input yields a failed boolean result with no state
mutation. -/
theorem c5_counterexample :
    (PriorityManager.submit_job 0 mW5 "j1" "u1" "d1" (-5) 1 none none).1 = true ∧
    ((PriorityManager.submit_job 0 mW5 "j1" "u1" "d1" (-5) 1 none none).2.queue.lookup.map
        (fun j => j.pages)) = [-5] := by
  constructor
  · rfl
  · rfl

/-- C5 amended: the facade performs no input validation.  A submit whose
job_id is fresh returns true and appends the job even when the page count
is negative (a supplied aging interval of zero is separately replaced by
the scheduler default, see C6); rejections that do occur are reported as
boolean results, never thrown. -/
theorem c5_no_validation (now : Nat) (m : PriorityManager) (id u d : String)
    (pages pr : Int) (hneg : pages < 0)
    (hfresh : (m.queue.lookup.any (fun j => j.job_id == id)) = false) :
    (PriorityManager.submit_job now m id u d pages pr none none).1 = true ∧
    ((PriorityManager.submit_job now m id u d pages pr none none).2.queue.lookup.map
        (fun j => j.pages)) = (m.queue.lookup.map (fun j => j.pages)) ++ [pages] := by
  unfold PriorityManager.submit_job PriorityQueue.add_job
  simp only [hfresh, Bool.false_eq_true, if_false]
  simp

theorem c5_no_validation_witness :
    ((-5 : Int) < 0 ∧ (mW5.queue.lookup.any (fun j => j.job_id == "j1")) = false) ∧
    (PriorityManager.submit_job 3 mW5 "j1" "u1" "d1" (-5) 1 none none).1 = true ∧
    ((PriorityManager.submit_job 3 mW5 "j1" "u1" "d1" (-5) 1 none none).2.queue.lookup.map
        (fun j => j.pages)) = (mW5.queue.lookup.map (fun j => j.pages)) ++ [-5] :=
  ⟨⟨by decide, by decide⟩,
    c5_no_validation 3 mW5 "j1" "u1" "d1" (-5) 1 (by decide) (by decide)⟩

def mW6 : PriorityManager :=
  { queue := { heap := [], lookup := [], counter := 0 },
    default_aging_interval := 300, default_max_wait := 3600 }

/-- C6 counterexample: explicitly supplying aging_interval = 0 and
max_wait_time = 0 does not produce a job carrying the supplied values: the
Python `or` treats 0 as unsupplied, so the job carries the scheduler
defaults 300 and 3600 instead. -/
theorem c6_counterexample :
    ((PriorityManager.submit_job 0 mW6 "j1" "u1" "d1" 1 1 (some 0) (some 0)).2.queue.lookup.map
        (fun j => j.aging_interval)) = [300] ∧
    ((PriorityManager.submit_job 0 mW6 "j1" "u1" "d1" 1 1 (some 0) (some 0)).2.queue.lookup.map
        (fun j => j.max_wait_time)) = [3600] ∧
    (300 : Nat) ≠ 0 ∧ (3600 : Nat) ≠ 0 := by
  refine ⟨rfl, rfl, by decide, by decide⟩

/-- C6 amended: a supplied nonzero aging_interval or max_wait_time is
carried exactly; an unsupplied one receives the scheduler default current
at submission; a supplied zero is treated as unsupplied (Python falsy `or`)
and also receives the default.  Once constructed the record is never
rewritten: reads and removals only keep or drop lookup records, so later
changes to the defaults cannot affect jobs already submitted. -/
theorem c6_config_resolution (now : Nat) (m : PriorityManager) (id u d : String)
    (pg pr : Int) (a w : Nat) (ha : a ≠ 0) (hw : w ≠ 0)
    (hfresh : (m.queue.lookup.any (fun j => j.job_id == id)) = false)
    (s2 : PriorityQueue) (n2 : Nat) (i2 : String) :
    ((PriorityManager.submit_job now m id u d pg pr (some a) (some w)).2.queue.lookup.map
        (fun j => j.aging_interval)) =
      (m.queue.lookup.map (fun j => j.aging_interval)) ++ [a] ∧
    ((PriorityManager.submit_job now m id u d pg pr (some a) (some w)).2.queue.lookup.map
        (fun j => j.max_wait_time)) =
      (m.queue.lookup.map (fun j => j.max_wait_time)) ++ [w] ∧
    ((PriorityManager.submit_job now m id u d pg pr none none).2.queue.lookup.map
        (fun j => j.aging_interval)) =
      (m.queue.lookup.map (fun j => j.aging_interval)) ++ [m.default_aging_interval] ∧
    ((PriorityManager.submit_job now m id u d pg pr none none).2.queue.lookup.map
        (fun j => j.max_wait_time)) =
      (m.queue.lookup.map (fun j => j.max_wait_time)) ++ [m.default_max_wait] ∧
    ((PriorityManager.submit_job now m id u d pg pr (some 0) (some 0)).2.queue.lookup.map
        (fun j => j.aging_interval)) =
      (m.queue.lookup.map (fun j => j.aging_interval)) ++ [m.default_aging_interval] ∧
    List.Sublist ((PriorityQueue.cleanup_expired_jobs n2 s2).lookup) s2.lookup ∧
    List.Sublist (((PriorityQueue.remove_job n2 s2 i2).2).lookup) s2.lookup ∧
    (PriorityQueue.rebalance_priorities n2 s2).lookup = s2.lookup := by
  refine ⟨?_, ?_, ?_, ?_, ?_, ?_, ?_, rebalance_lookup n2 s2⟩
  · unfold PriorityManager.submit_job PriorityQueue.add_job
    simp only [hfresh, Bool.false_eq_true, if_false]
    simp [pyOr, ha]
  · unfold PriorityManager.submit_job PriorityQueue.add_job
    simp only [hfresh, Bool.false_eq_true, if_false]
    simp [pyOr, hw]
  · unfold PriorityManager.submit_job PriorityQueue.add_job
    simp only [hfresh, Bool.false_eq_true, if_false]
    simp [pyOr]
  · unfold PriorityManager.submit_job PriorityQueue.add_job
    simp only [hfresh, Bool.false_eq_true, if_false]
    simp [pyOr]
  · unfold PriorityManager.submit_job PriorityQueue.add_job
    simp only [hfresh, Bool.false_eq_true, if_false]
    simp [pyOr]
  · unfold PriorityQueue.cleanup_expired_jobs
    split
    · rw [rebuild_heap_lookup]
      exact List.filter_sublist s2.lookup
    · exact List.Sublist.refl s2.lookup
  · unfold PriorityQueue.remove_job
    split
    · exact List.Sublist.refl s2.lookup
    · rw [rebuild_heap_lookup]
      exact List.eraseP_sublist s2.lookup

theorem c6_config_resolution_witness :
    ((7 : Nat) ≠ 0 ∧ (90 : Nat) ≠ 0 ∧
      (mW6.queue.lookup.any (fun j => j.job_id == "z")) = false) ∧
    ((PriorityManager.submit_job 0 mW6 "z" "u" "d" 1 1 (some 7) (some 90)).2.queue.lookup.map
        (fun j => j.aging_interval)) =
      (mW6.queue.lookup.map (fun j => j.aging_interval)) ++ [7] ∧
    ((PriorityManager.submit_job 0 mW6 "z" "u" "d" 1 1 (some 7) (some 90)).2.queue.lookup.map
        (fun j => j.max_wait_time)) =
      (mW6.queue.lookup.map (fun j => j.max_wait_time)) ++ [90] ∧
    ((PriorityManager.submit_job 0 mW6 "z" "u" "d" 1 1 none none).2.queue.lookup.map
        (fun j => j.aging_interval)) =
      (mW6.queue.lookup.map (fun j => j.aging_interval)) ++ [mW6.default_aging_interval] ∧
    ((PriorityManager.submit_job 0 mW6 "z" "u" "d" 1 1 none none).2.queue.lookup.map
        (fun j => j.max_wait_time)) =
      (mW6.queue.lookup.map (fun j => j.max_wait_time)) ++ [mW6.default_max_wait] ∧
    ((PriorityManager.submit_job 0 mW6 "z" "u" "d" 1 1 (some 0) (some 0)).2.queue.lookup.map
        (fun j => j.aging_interval)) =
      (mW6.queue.lookup.map (fun j => j.aging_interval)) ++ [mW6.default_aging_interval] ∧
    List.Sublist ((PriorityQueue.cleanup_expired_jobs 11 mW4.queue).lookup) mW4.queue.lookup ∧
    List.Sublist (((PriorityQueue.remove_job 11 mW4.queue "a").2).lookup) mW4.queue.lookup ∧
    (PriorityQueue.rebalance_priorities 11 mW4.queue).lookup = mW4.queue.lookup :=
  ⟨⟨by decide, by decide, by decide⟩,
    c6_config_resolution 0 mW6 "z" "u" "d" 1 1 7 90 (by decide) (by decide) (by decide)
      mW4.queue 11 "a"⟩

def stW8 : PrintQueueIntegration :=
  { priority_manager := mW4, expiry_notification_callback := none,
    status_change_callback := some 7 }

/-- C8 counterexample: with a callback registered in the slot, the
status-style read get_print_order_report completes without invoking the
callback, contradicting the claim that the callback fires after any
status-style read. -/
theorem c8_counterexample :
    stW8.status_change_callback = some 7 ∧
    (PrintQueueIntegration.get_print_order_report 0 stW8).2.1 = [] := by
  exact ⟨rfl, rfl⟩

/-- C8 amended: the registered status callback is invoked synchronously
only by handle_tick_event, immediately after that call's status read and
with that read's result; other status-style reads such as
get_print_order_report invoke nothing.  Registration holds a single slot
and the last registration wins. -/
theorem c8_callback_semantics (now : Nat) (st : PrintQueueIntegration) (cb c1 c2 : Nat)
    (h : st.status_change_callback = some cb) :
    (PrintQueueIntegration.handle_tick_event now st).2.1 =
      [(cb, (PrintQueueIntegration.handle_tick_event now st).1)] ∧
    (PrintQueueIntegration.register_status_callback
        (PrintQueueIntegration.register_status_callback st c1) c2).status_change_callback =
      some c2 ∧
    (PrintQueueIntegration.get_print_order_report now st).2.1 = [] := by
  refine ⟨?_, rfl, rfl⟩
  unfold PrintQueueIntegration.handle_tick_event
  rw [h]

theorem c8_callback_semantics_witness :
    (stW8.status_change_callback = some 7) ∧
    (PrintQueueIntegration.handle_tick_event 0 stW8).2.1 =
      [(7, (PrintQueueIntegration.handle_tick_event 0 stW8).1)] ∧
    (PrintQueueIntegration.register_status_callback
        (PrintQueueIntegration.register_status_callback stW8 3) 4).status_change_callback =
      some 4 ∧
    (PrintQueueIntegration.get_print_order_report 0 stW8).2.1 = [] :=
  ⟨rfl, c8_callback_semantics 0 stW8 7 3 4 rfl⟩

/-- C2: the snapshot (and hence status().jobs, which equals it) lists the
jobs in the order of ascending (-effective_priority, submission_time,
insertion_sequence) keys: a strictly higher effective priority always
precedes a lower one, and among equal priorities the earlier submission
time precedes. -/
theorem c2_snapshot_ordering :
    (∀ (s : PriorityQueue) (now : Nat),
        ((PriorityQueue.get_queue_snapshot now s).1).Pairwise viewR) ∧
    (∀ (m : PriorityManager) (now : Nat),
        (PriorityManager.get_queue_status now m).1.jobs =
          (PriorityQueue.get_queue_snapshot now m.queue).1) := by
  constructor
  · intro s now
    unfold PriorityQueue.get_queue_snapshot
    rw [List.pairwise_map]
    have hsorted : (List.insertionSort entryLE
        (PriorityQueue.rebalance_priorities now
          (PriorityQueue.cleanup_expired_jobs now s)).heap).Pairwise entryLE :=
      List.sorted_insertionSort entryLE _
    refine List.Pairwise.imp_of_mem ?_ (hsorted.sublist (List.filter_sublist _))
    intro a b hma hmb hab
    have hpa : a.2.status = JobStatus.pending := by
      simpa using (List.mem_filter.mp hma).2
    have hpb : b.2.status = JobStatus.pending := by
      simpa using (List.mem_filter.mp hmb).2
    have hha : a ∈ (PriorityQueue.rebalance_priorities now
        (PriorityQueue.cleanup_expired_jobs now s)).heap :=
      (List.perm_insertionSort entryLE _).mem_iff.mp (List.mem_filter.mp hma).1
    have hhb : b ∈ (PriorityQueue.rebalance_priorities now
        (PriorityQueue.cleanup_expired_jobs now s)).heap :=
      (List.perm_insertionSort entryLE _).mem_iff.mp (List.mem_filter.mp hmb).1
    obtain ⟨-, hka, hca⟩ := rebalance_heap_pending_mem hha hpa
    obtain ⟨-, hkb, hcb⟩ := rebalance_heap_pending_mem hhb hpb
    unfold entryLE lex3LE at hab
    unfold viewR PriorityQueue.viewOf
    simp only
    rw [hka, hkb] at hab
    rw [hca, hcb] at hab
    omega
  · intro m now
    exact get_queue_status_jobs now m

/-- C3: a Pending job whose elapsed time strictly exceeds its max_wait_time
is neither returned by get_next_job nor listed by the snapshot or by
status().jobs at that time: the read's expiry sweep removes it even though
complete was never called. -/
theorem c3_expired_jobs_invisible (m : PriorityManager) (now : Nat) (j : PriorityJob)
    (hmem : j ∈ m.queue.lookup) (hp : j.status = JobStatus.pending)
    (hexp : j.max_wait_time < now - j.created_at)
    (hnd : (m.queue.lookup.map (fun x => x.job_id)).Nodup) :
    ((PriorityQueue.get_next_job now m.queue).1.map (fun r => r.job_id)) ≠ some j.job_id ∧
    j.job_id ∉ ((PriorityQueue.get_queue_snapshot now m.queue).1.map (fun v => v.job_id)) ∧
    j.job_id ∉ ((PriorityManager.get_queue_status now m).1.jobs.map (fun v => v.job_id)) := by
  have hkey : ∀ e : HeapEntry,
      e ∈ (PriorityQueue.rebalance_priorities now
        (PriorityQueue.cleanup_expired_jobs now m.queue)).heap →
      e.2.status = JobStatus.pending → e.2.job_id ≠ j.job_id := by
    intro e he hpe hid
    obtain ⟨hmem1, -, -⟩ := rebalance_heap_pending_mem he hpe
    obtain ⟨hmem0, hnotexp⟩ := cleanup_lookup_mem hmem1
    have : e.2 = j := eq_of_mem_of_nodup_ids hnd hmem0 hmem hid
    subst this
    unfold PriorityQueue.expiredPendingB is_expired at hnotexp
    simp [hpe] at hnotexp
    omega
  refine ⟨?_, ?_, ?_⟩
  · simp only [PriorityQueue.get_next_job]
    cases hh : (PriorityQueue.rebalance_priorities now
        (PriorityQueue.cleanup_expired_jobs now m.queue)).heap with
    | nil => simp
    | cons e t =>
        have hme : e ∈ (PriorityQueue.rebalance_priorities now
            (PriorityQueue.cleanup_expired_jobs now m.queue)).heap := by
          rw [hh]
          exact List.mem_cons_self e t
        by_cases hpe : e.2.status = JobStatus.pending
        · have hb : (e.2.status == JobStatus.pending) = true := by simp [hpe]
          simp only [hb, if_true]
          simpa using hkey e hme hpe
        · have hb : (e.2.status == JobStatus.pending) = false := by simp [hpe]
          simp [hb]
  · intro hc
    obtain ⟨v, hv, hid⟩ := List.mem_map.mp hc
    obtain ⟨e, he, hpe, hve⟩ := snapshot_mem hv
    apply hkey e he hpe
    rw [hve] at hid
    exact hid
  · rw [get_queue_status_jobs]
    intro hc
    obtain ⟨v, hv, hid⟩ := List.mem_map.mp hc
    obtain ⟨e, he, hpe, hve⟩ := snapshot_mem hv
    apply hkey e he hpe
    rw [hve] at hid
    exact hid

def jW3 : PriorityJob :=
  { job_id := "x", user_id := "u", document_name := "d", pages := 4, initial_priority := 2,
    created_at := 0, status := JobStatus.pending, aging_interval := 300, max_wait_time := 10 }

def mW3 : PriorityManager :=
  { queue := { heap := [((-2, 0, 0), jW3)], lookup := [jW3], counter := 1 },
    default_aging_interval := 300, default_max_wait := 3600 }

theorem c3_expired_jobs_invisible_witness :
    (jW3 ∈ mW3.queue.lookup ∧ jW3.status = JobStatus.pending ∧
      jW3.max_wait_time < 11 - jW3.created_at ∧
      (mW3.queue.lookup.map (fun x => x.job_id)).Nodup) ∧
    ((PriorityQueue.get_next_job 11 mW3.queue).1.map (fun r => r.job_id)) ≠ some jW3.job_id ∧
    jW3.job_id ∉ ((PriorityQueue.get_queue_snapshot 11 mW3.queue).1.map (fun v => v.job_id)) ∧
    jW3.job_id ∉ ((PriorityManager.get_queue_status 11 mW3).1.jobs.map (fun v => v.job_id)) :=
  ⟨⟨by decide, by decide, by decide, by decide⟩,
    c3_expired_jobs_invisible mW3 11 jW3 (by decide) (by decide) (by decide) (by decide)⟩

def jW7 : PriorityJob :=
  { job_id := "j1", user_id := "u1", document_name := "d1", pages := 3, initial_priority := 1,
    created_at := 0, status := JobStatus.pending, aging_interval := 300, max_wait_time := 10 }

def mW7 : PriorityManager :=
  { queue := { heap := [((-1, 0, 0), jW7)], lookup := [jW7], counter := 1 },
    default_aging_interval := 300, default_max_wait := 3600 }

/-- C7 counterexample: with one Pending job already past its max_wait_time
and no resync run since, size() counts it (1) while status().jobs is empty
(the status read sweeps it first), so the two disagree in exactly the
states the claim includes. -/
theorem c7_counterexample :
    PriorityQueue.size mW7.queue = 1 ∧
    ((PriorityManager.get_queue_status 11 mW7).1.jobs).length = 0 ∧ (1 : Nat) ≠ 0 := by
  refine ⟨rfl, rfl, by decide⟩

/-- C7 amended: size() equals the number of entries in status().jobs in
every state where no Pending job of the lookup has exceeded its
max_wait_time (and the heap covers the pending lookup jobs, as in every
reachable state).  When an over-deadline Pending job exists and no resync
has run since, size() still counts it while the status read sweeps it, so
size() can exceed the entry count. -/
theorem c7_size_matches_status (now : Nat) (m : PriorityManager)
    (hno : ∀ j ∈ m.queue.lookup, j.status = JobStatus.pending → is_expired j now = false)
    (hwf : ∀ j ∈ m.queue.lookup, j.status = JobStatus.pending →
      ∃ e ∈ m.queue.heap, e.2 = j) :
    PriorityQueue.size m.queue = ((PriorityManager.get_queue_status now m).1.jobs).length := by
  rw [get_queue_status_jobs]
  have hnone : (m.queue.lookup.any (PriorityQueue.expiredPendingB now)) = false := by
    rw [List.any_eq_false]
    intro j hj
    unfold PriorityQueue.expiredPendingB
    by_cases hp : j.status = JobStatus.pending
    · simp [hno j hj hp]
    · simp [hp]
  have hclean : PriorityQueue.cleanup_expired_jobs now m.queue = m.queue := by
    unfold PriorityQueue.cleanup_expired_jobs
    rw [hnone]
    simp
  unfold PriorityQueue.get_queue_snapshot
  rw [hclean]
  rw [List.length_map]
  unfold PriorityQueue.rebalance_priorities
  by_cases hb : (m.queue.heap.any (fun e => e.2.status == JobStatus.pending)) = true
  · rw [if_pos hb]
    have hall : ∀ e ∈ List.insertionSort entryLE (PriorityQueue.rebuild_heap now m.queue).heap,
        (e.2.status == JobStatus.pending) = true := by
      intro e he
      have := (rebuild_heap_mem ((List.perm_insertionSort entryLE _).mem_iff.mp he)).2.1
      simp [this]
    rw [List.filter_eq_self.mpr hall]
    rw [(List.perm_insertionSort entryLE _).length_eq]
    rw [rebuild_heap_length]
    rfl
  · rw [if_neg hb]
    rw [Bool.not_eq_true, List.any_eq_false] at hb
    have hnopend : ∀ j ∈ m.queue.lookup, ¬ j.status = JobStatus.pending := by
      intro j hj hp
      obtain ⟨e, he, hej⟩ := hwf j hj hp
      have := hb e he
      rw [hej] at this
      simp [hp] at this
    have hsz : PriorityQueue.size m.queue = 0 := by
      unfold PriorityQueue.size
      rw [List.length_eq_zero, List.filter_eq_nil_iff]
      intro j hj
      simp [hnopend j hj]
    rw [hsz]
    have : (List.insertionSort entryLE m.queue.heap).filter
        (fun e => e.2.status == JobStatus.pending) = [] := by
      rw [List.filter_eq_nil_iff]
      intro e he
      have := hb e ((List.perm_insertionSort entryLE _).mem_iff.mp he)
      simpa using this
    rw [this]
    rfl

def jV7 : PriorityJob :=
  { job_id := "f", user_id := "u", document_name := "d", pages := 2, initial_priority := 2,
    created_at := 5, status := JobStatus.pending, aging_interval := 60, max_wait_time := 3600 }

def mV7 : PriorityManager :=
  { queue := { heap := [((-2, 5, 0), jV7)], lookup := [jV7], counter := 1 },
    default_aging_interval := 300, default_max_wait := 3600 }

theorem c7_size_matches_status_witness :
    ((∀ j ∈ mV7.queue.lookup, j.status = JobStatus.pending → is_expired j 100 = false) ∧
      (∀ j ∈ mV7.queue.lookup, j.status = JobStatus.pending →
        ∃ e ∈ mV7.queue.heap, e.2 = j)) ∧
    PriorityQueue.size mV7.queue = ((PriorityManager.get_queue_status 100 mV7).1.jobs).length :=
  ⟨⟨by decide, by decide⟩, c7_size_matches_status 100 mV7 (by decide) (by decide)⟩

def jWX : PriorityJob :=
  { job_id := "q", user_id := "u", document_name := "d", pages := 8, initial_priority := 3,
    created_at := 0, status := JobStatus.pending, aging_interval := 300, max_wait_time := 10 }

def mWX : PriorityManager :=
  { queue := { heap := [((-3, 0, 0), jWX)], lookup := [jWX], counter := 1 },
    default_aging_interval := 300, default_max_wait := 3600 }

/-- C10: completing a Pending job whose elapsed time already exceeds its
max_wait_time (no resync having run since) returns true and yields the job
marked Completed, not Expired: remove_job performs no expiry check. -/
theorem c10_complete_over_deadline (now : Nat) (m : PriorityManager) (j : PriorityJob)
    (hmem : j ∈ m.queue.lookup) (hp : j.status = JobStatus.pending)
    (hexp : j.max_wait_time < now - j.created_at)
    (hnd : (m.queue.lookup.map (fun x => x.job_id)).Nodup) :
    (PriorityManager.complete_job now m j.job_id).1 = true ∧
    (PriorityQueue.remove_job now m.queue j.job_id).1 =
      some { j with status := JobStatus.completed } := by
  have hfind : m.queue.lookup.find? (fun x => x.job_id == j.job_id) = some j :=
    find?_id_of_nodup hnd hmem
  constructor
  · unfold PriorityManager.complete_job PriorityQueue.remove_job
    rw [hfind]
    rfl
  · unfold PriorityQueue.remove_job
    rw [hfind]

theorem c10_complete_over_deadline_witness :
    (jWX ∈ mWX.queue.lookup ∧ jWX.status = JobStatus.pending ∧
      jWX.max_wait_time < 11 - jWX.created_at ∧
      (mWX.queue.lookup.map (fun x => x.job_id)).Nodup) ∧
    (PriorityManager.complete_job 11 mWX jWX.job_id).1 = true ∧
    (PriorityQueue.remove_job 11 mWX.queue jWX.job_id).1 =
      some { jWX with status := JobStatus.completed } :=
  ⟨⟨by decide, by decide, by decide, by decide⟩,
    c10_complete_over_deadline 11 mWX jWX (by decide) (by decide) (by decide) (by decide)⟩

lemma aging_bump_case (a k : Nat) (ha : 0 < a) (hd : a ∣ k + 1) :
    a ≤ (k + 1) - a * (k / a) ∧ (k + 1) / a = k / a + 1 ∧ a * ((k + 1) / a) = k + 1 := by
  have hs : (k + 1) / a = k / a + 1 := by
    rw [Nat.succ_div, if_pos hd]
  have hq : a * ((k + 1) / a) = k + 1 := Nat.mul_div_cancel' hd
  have he1 : a * (k / a + 1) = a * (k / a) + a := by ring
  rw [hs] at hq
  refine ⟨?_, hs, ?_⟩
  · omega
  · rw [hs, he1]
    omega

lemma aging_skip_case (a k : Nat) (ha : 0 < a) (hd : ¬ a ∣ k + 1) :
    ¬ (a ≤ (k + 1) - a * (k / a)) ∧ (k + 1) / a = k / a := by
  have hs : (k + 1) / a = k / a := by
    rw [Nat.succ_div, if_neg hd]
    omega
  have h1 := Nat.div_add_mod k a
  have h2 := Nat.mod_lt k ha
  refine ⟨?_, hs⟩
  intro hcond
  apply hd
  have hmod : k % a = a - 1 := by omega
  have : k + 1 = a * (k / a + 1) := by
    rw [Nat.mul_succ]
    omega
  exact ⟨k / a + 1, this⟩

lemma tick_singleton (u j : String) (p0 : Int) (a e c : Nat) (ha : 0 < a) :
    ∀ k : Nat, k < e →
      PrintQueueManager.tick^[k]
          { queue := [{ user_id := u, job_id := j, priority := p0, waiting_time := 0,
                        last_aged := 0 }],
            current_time := 0, aging_interval := a, expiry_time := e, capacity := c } =
        { queue := [{ user_id := u, job_id := j, priority := p0 + ((k / a : Nat) : Int),
                      waiting_time := k, last_aged := a * (k / a) }],
          current_time := k, aging_interval := a, expiry_time := e, capacity := c }
  | 0, hk => by
      simp [Nat.zero_div]
  | (k + 1), hk => by
      rw [Function.iterate_succ_apply', tick_singleton u j p0 a e c ha k (by omega)]
      have hane : ¬ (a = 0) := by omega
      have hene : ¬ (e = 0) := by omega
      have hkeep : k + 1 < e := hk
      by_cases hd : a ∣ k + 1
      · obtain ⟨hcond, hdiv, hmul⟩ := aging_bump_case a k ha hd
        rw [hdiv] at hmul
        have hring : a * (k / a + 1) = a * (k / a) + a := by ring
        simp [PrintQueueManager.tick, PrintQueueManager.apply_priority_aging,
          PrintQueueManager.remove_expired_jobs, PrintQueueManager.resort,
          List.insertionSort, List.orderedInsert, hane, hene, hcond, hk, hdiv]
        exact ⟨by ring, hmul.symm⟩
      · obtain ⟨hcond, hdiv⟩ := aging_skip_case a k ha hd
        simp [PrintQueueManager.tick, PrintQueueManager.apply_priority_aging,
          PrintQueueManager.remove_expired_jobs, PrintQueueManager.resort,
          List.insertionSort, List.orderedInsert, hane, hene, hcond, hk, hdiv]

def pqmW1 : PrintQueueManager :=
  { queue := [], current_time := 0, aging_interval := 1, expiry_time := 10, capacity := 50 }

def pqmW3 : PrintQueueManager :=
  { queue := [], current_time := 0, aging_interval := 3, expiry_time := 10, capacity := 50 }

/-- C9 counterexample: the tick variant does not share the engine's
semantics.  (a) No cap at 5: a job submitted at priority 5 with aging
interval 1 reaches priority 6 after one tick.  (b) Ties are not FIFO: two
jobs of equal priority are listed with the later-submitted job2 before the
earlier job1, because the sort key uses ascending waiting_time, which is
smaller for the newer job. -/
theorem c9_counterexample :
    ((PrintQueueManager.tick (pqmW1.enqueue_job "user1" "job1" 5).2).queue.map
        (fun x => x.priority)) = [6] ∧ ¬ ((6 : Int) ≤ 5) ∧
    (((((pqmW3.enqueue_job "user1" "job1" 2).2).tick.enqueue_job "user2" "job2" 2).2).tick.queue.map
        (fun x => x.job_id)) = ["job2", "job1"] := by
  refine ⟨by decide, by decide, by decide⟩

/-- C9 amended: after every tick the queue is sorted ascending by
(-priority, waiting_time): descending priority, with ties among equal
priorities broken by smaller waiting time, i.e. the later-submitted job
first, not FIFO.  A single job enqueued alone gains one priority level per
full aging interval waited with no cap at 5 (priority p0 + floor(n/a)
after n ticks while n is below the expiry threshold), and it is removed
once its waiting time reaches expiry_time, even though its wait never
strictly exceeded it. -/
theorem c9_tick_variant_semantics (s : PrintQueueManager) (u j : String) (p0 : Int)
    (a e c n : Nat) (ha : 0 < a) (hn : n < e) :
    ((PrintQueueManager.tick s).queue).Pairwise tickLE ∧
    (PrintQueueManager.tick^[n]
        { queue := [{ user_id := u, job_id := j, priority := p0, waiting_time := 0,
                      last_aged := 0 }],
          current_time := 0, aging_interval := a, expiry_time := e, capacity := c }).queue =
      [{ user_id := u, job_id := j, priority := p0 + ((n / a : Nat) : Int),
         waiting_time := n, last_aged := a * (n / a) }] ∧
    (PrintQueueManager.tick^[e]
        { queue := [{ user_id := u, job_id := j, priority := p0, waiting_time := 0,
                      last_aged := 0 }],
          current_time := 0, aging_interval := a, expiry_time := e, capacity := c }).queue =
      [] := by
  refine ⟨List.sorted_insertionSort tickLE _, ?_, ?_⟩
  · rw [tick_singleton u j p0 a e c ha n hn]
  · obtain ⟨e', rfl⟩ : ∃ e', e = e' + 1 := ⟨e - 1, by omega⟩
    rw [Function.iterate_succ_apply']
    rw [tick_singleton u j p0 a (e' + 1) c ha e' (by omega)]
    have hane : ¬ (a = 0) := by omega
    have hene : ¬ (e' + 1 = 0) := by omega
    have hlt : ¬ (e' + 1 < e' + 1) := by omega
    by_cases hd : a ∣ e' + 1
    · obtain ⟨hcond, hdiv, hmul⟩ := aging_bump_case a e' ha hd
      simp [PrintQueueManager.tick, PrintQueueManager.apply_priority_aging,
        PrintQueueManager.remove_expired_jobs, PrintQueueManager.resort,
        List.insertionSort, hane, hene, hcond, hlt]
    · obtain ⟨hcond, hdiv⟩ := aging_skip_case a e' ha hd
      simp [PrintQueueManager.tick, PrintQueueManager.apply_priority_aging,
        PrintQueueManager.remove_expired_jobs, PrintQueueManager.resort,
        List.insertionSort, hane, hene, hcond, hlt]

def pqmW9 : PrintQueueManager :=
  { queue := [{ user_id := "ua", job_id := "ja", priority := 2, waiting_time := 1,
                last_aged := 0 },
              { user_id := "ub", job_id := "jb", priority := 4, waiting_time := 0,
                last_aged := 0 }],
    current_time := 1, aging_interval := 3, expiry_time := 10, capacity := 50 }

theorem c9_tick_variant_semantics_witness :
    ((0 : Nat) < 3 ∧ (7 : Nat) < 10) ∧
    ((PrintQueueManager.tick pqmW9).queue).Pairwise tickLE ∧
    (PrintQueueManager.tick^[7]
        { queue := [{ user_id := "u", job_id := "j", priority := 1, waiting_time := 0,
                      last_aged := 0 }],
          current_time := 0, aging_interval := 3, expiry_time := 10, capacity := 50 }).queue =
      [{ user_id := "u", job_id := "j", priority := 1 + ((7 / 3 : Nat) : Int),
         waiting_time := 7, last_aged := 3 * (7 / 3) }] ∧
    (PrintQueueManager.tick^[10]
        { queue := [{ user_id := "u", job_id := "j", priority := 1, waiting_time := 0,
                      last_aged := 0 }],
          current_time := 0, aging_interval := 3, expiry_time := 10, capacity := 50 }).queue =
      [] :=
  ⟨⟨by decide, by decide⟩,
    c9_tick_variant_semantics pqmW9 "u" "j" 1 3 10 50 7 (by decide) (by decide)⟩
